import Mathlib

/-! Shallow embedding of `src/main.py` (PyQt6 digital clock application).

Modelling conventions:
* `QColor` values are modelled by their `name()` string (e.g. `"#ff0000"`),
  which is the only way the program ever consumes a color apart from
  storing it into a palette (palettes are modelled as the stored name).
* A UTC instant (`datetime.utcnow()`) is modelled as an integer number of
  minutes since a midnight-aligned epoch: the program only ever displays
  hours and minutes, and `timedelta(hours=offset)` shifts by whole hours,
  so sub-minute precision is irrelevant.  The hour of an instant `t` is
  `(t / 60) % 24` and its minute `t % 60` (Python `//`/`%` by a positive
  constant agree with Lean's `Int` `/`/`%`).
* The Python dicts `SettingsWidget.settings` and
  `DigitalClockWidget.settings` are modelled as a record `SettingsDict`.
  The clock widget's initially empty dict `{}` is modelled as `none`.
* `pyqtSignal(dict)` declares the C++ signature `(QVariantMap)` (PyQt's
  chimera type mapping sends the Python type `dict` to `QVariantMap`), so
  `emit(self.settings)` converts the dict to a `QVariantMap` and the
  connected slot receives a freshly converted dict: a shallow copy.  The
  emission in `on_start` is therefore modelled as passing the current
  *value* of the form's settings record.
* `int(h * 0.30)`, `int(h * 0.50)`, `int(h * 0.55)` are modelled as
  `h * 30 / 100`, `h * 50 / 100`, `h * 55 / 100` in `Nat`: the float
  products are exactly the rational floors for every height up to far
  beyond any screen size (checked exhaustively up to 20000).
-/

/-- The settings mapping (`SettingsWidget.settings` /
`DigitalClockWidget.settings` once started).  Colors are stored as their
`QColor.name()` strings. -/
structure SettingsDict where
  bg_color : String
  text_color : String
  size : String
  gmt_offset : ℤ
  font_family : String
  resolution : String
deriving DecidableEq, Repr

/-- Defaults installed in `SettingsWidget.__init__`:
black background, red text, Full Screen, GMT-3, Monospace, 1920x1080. -/
def defaultSettings : SettingsDict :=
  { bg_color := "#000000"
  , text_color := "#ff0000"
  , size := "Full Screen"
  , gmt_offset := -3
  , font_family := "Monospace"
  , resolution := "1920x1080" }

/-- Which widget the `QStackedWidget` currently shows. -/
inductive Screen
  | settingsScreen
  | clockScreen
deriving DecidableEq, Repr

/-- Signals emitted by the clock widget. -/
inductive ClockSignal
  | returnToSettings
deriving DecidableEq, Repr

/-- Whole-application state: the settings form model, the clock widget's
fields, and the main-window / stacked-widget state. -/
structure AppState where
  /-- `SettingsWidget.settings` (the live form model). -/
  settingsModel : SettingsDict
  /-- `DigitalClockWidget.settings`; `none` models the initial `{}`. -/
  clockSettings : Option SettingsDict
  /-- whether `DigitalClockWidget.timer` is active. -/
  timerRunning : Bool
  /-- `DigitalClockWidget.colon_visible`. -/
  colonVisible : Bool
  /-- `time_label`'s current (HTML) text. -/
  labelText : String
  /-- `time_label`'s font: family and pixel size, once set. -/
  labelFont : Option (String × ℕ)
  /-- clock widget palette `Window` color, set in `start_clock`. -/
  clockBgColor : Option String
  /-- `time_label` palette `WindowText` color, set in `start_clock`. -/
  clockTextColor : Option String
  /-- current widget of the `QStackedWidget`. -/
  currentScreen : Screen
  /-- whether the main window is in full-screen mode. -/
  isFullScreen : Bool
  /-- main-window width (meaningful when not full screen). -/
  winW : ℕ
  /-- main-window height (meaningful when not full screen). -/
  winH : ℕ
  /-- whether the clock widget has keyboard focus. -/
  clockFocused : Bool
deriving DecidableEq, Repr

/-- Two-digit zero-padded rendering, for values below 100: models
`strftime("%H")` / `strftime("%M")` output (hours < 24, minutes < 60). -/
def pad2 (n : ℕ) : String :=
  String.mk [Nat.digitChar (n / 10), Nat.digitChar (n % 10)]

/-- The colon `<span>` produced in `update_time`; the visible branch uses
the configured text color's name, the hidden branch the literal
`transparent`. -/
def colonSpan (color : String) : String :=
  "<span style=\"color:" ++ color ++ ";\">:</span>"

/-- Models `DigitalClockWidget.start_clock(settings)`: stores the received
settings, applies background and text colors to the palettes, starts the
500 ms timer and takes focus. -/
def start_clock (settings : SettingsDict) (s : AppState) : AppState :=
  { s with clockSettings := some settings
         , clockBgColor := some settings.bg_color
         , clockTextColor := some settings.text_color
         , timerRunning := true
         , clockFocused := true }

/-- Models `DigitalClockWidget.stop_clock()`: `self.timer.stop()`. -/
def stop_clock (s : AppState) : AppState :=
  { s with timerRunning := false }

/-- Models `DigitalClockWidget.update_font_size(target_height, target_width,
size_mode)`: pixel size is a percentage of the *height* (30% Small, 50%
Medium, 55% otherwise), the family comes from the stored settings with
default `Monospace`. -/
def update_font_size (target_height target_width : ℕ) (size_mode : String)
    (s : AppState) : AppState :=
  let percentage_num : ℕ :=
    if size_mode = "Small" then 30
    else if size_mode = "Medium" then 50
    else 55
  let pixel_size := target_height * percentage_num / 100
  let font_family :=
    match s.clockSettings with
    | some d => d.font_family
    | none => "Monospace"
  { s with labelFont := some (font_family, pixel_size) }

/-- Models `DigitalClockWidget.update_time()` at UTC instant `now` (minutes since
a midnight-aligned epoch): early return on the empty dict, otherwise shift
by `gmt_offset` hours, format `HH`/`MM`, render the colon span (colored or
transparent) and toggle `colon_visible`. -/
def update_time (now : ℤ) (s : AppState) : AppState :=
  match s.clockSettings with
  | none => s
  | some d =>
    let t := now + d.gmt_offset * 60
    let hours := pad2 ((t / 60) % 24).toNat
    let minutes := pad2 ((t % 60)).toNat
    let text_color := d.text_color
    let colon_html :=
      if s.colonVisible then colonSpan text_color else colonSpan "transparent"
    { s with labelText := hours ++ colon_html ++ minutes
           , colonVisible := !s.colonVisible }

/-- The key code `Qt.Key.Key_Escape` (0x01000000). -/
def key_Escape : ℕ := 16777216

/-- Models `DigitalClockWidget.keyPressEvent(event)`: on Escape, emit
`return_to_settings`; otherwise defer to the superclass (no state
change).  Returns the unchanged widget state and the emitted signals. -/
def keyPressEvent (key : ℕ) (s : AppState) : AppState × List ClockSignal :=
  if key = key_Escape then (s, [ClockSignal.returnToSettings]) else (s, [])

/-- Models `SettingsWidget.choose_bg_color`: the dialog's result is stored only
when valid (`color.isValid()`); the swatch stylesheet update has no
modelled state. -/
def choose_bg_color (c : String) (valid : Bool) (s : AppState) : AppState :=
  if valid then
    { s with settingsModel := { s.settingsModel with bg_color := c } }
  else s

/-- Models `SettingsWidget.choose_text_color`. -/
def choose_text_color (c : String) (valid : Bool) (s : AppState) : AppState :=
  if valid then
    { s with settingsModel := { s.settingsModel with text_color := c } }
  else s

/-- Models `SettingsWidget.set_size`. -/
def set_size (t : String) (s : AppState) : AppState :=
  { s with settingsModel := { s.settingsModel with size := t } }

/-- Models `SettingsWidget.set_gmt`. -/
def set_gmt (v : ℤ) (s : AppState) : AppState :=
  { s with settingsModel := { s.settingsModel with gmt_offset := v } }

/-- Models `SettingsWidget.set_font`. -/
def set_font (f : String) (s : AppState) : AppState :=
  { s with settingsModel := { s.settingsModel with font_family := f } }

/-- Models `SettingsWidget.set_resolution`. -/
def set_resolution (r : String) (s : AppState) : AppState :=
  { s with settingsModel := { s.settingsModel with resolution := r } }

/-- Python `str.split('x')`, on character lists (structural recursion so
that the kernel can evaluate it). -/
def splitOnX : List Char → List Char → List (List Char)
  | [], acc => [acc.reverse]
  | c :: rest, acc =>
    if c = 'x' then acc.reverse :: splitOnX rest []
    else splitOnX rest (c :: acc)

/-- Accumulated decimal value of a digit list. -/
def digitsToNat (l : List Char) : ℕ :=
  l.foldl (fun a c => 10 * a + (c.toNat - '0'.toNat)) 0

/-- Python `int(str)` restricted to plain digit strings (the only shape
the resolution dropdown and the examples here produce); `none` models the
raised `ValueError`. -/
def parseNat (l : List Char) : Option ℕ :=
  if l ≠ [] ∧ l.all Char.isDigit then some (digitsToNat l) else none

/-- The resolution parsing in `MainApp.show_clock`:
`width_str, height_str = resolution.split('x')` (fails unless exactly two
parts) followed by `int` on both parts; `none` models a raised
`ValueError`. -/
def parseResolution (r : String) : Option (ℕ × ℕ) :=
  match splitOnX r.data [] with
  | [w, h] =>
    match parseNat w, parseNat h with
    | some wv, some hv => some (wv, hv)
    | _, _ => none
  | _ => none

/-- The primitive actions performed by `MainApp.show_settings`, in
order; interpreting the list preserves the source's statement order. -/
inductive ShellCmd
  | stopClockTimer
  | showNormalWin
  | resizeWin (w h : ℕ)
  | setCurrentScreen (sc : Screen)
deriving DecidableEq, Repr

/-- Effect of one shell action on the application state. -/
def runShellCmd (s : AppState) : ShellCmd → AppState
  | ShellCmd.stopClockTimer => stop_clock s
  | ShellCmd.showNormalWin => { s with isFullScreen := false }
  | ShellCmd.resizeWin w h => { s with winW := w, winH := h }
  | ShellCmd.setCurrentScreen sc => { s with currentScreen := sc }

/-- Run a list of shell actions left to right. -/
def runShellCmds (cmds : List ShellCmd) (s : AppState) : AppState :=
  cmds.foldl runShellCmd s

/-- The body of `MainApp.show_settings`, statement by statement:
`stop_clock(); showNormal(); resize(400, 500); setCurrentWidget(settings)`. -/
def show_settings_cmds : List ShellCmd :=
  [ ShellCmd.stopClockTimer
  , ShellCmd.showNormalWin
  , ShellCmd.resizeWin 400 500
  , ShellCmd.setCurrentScreen Screen.settingsScreen ]

/-- Models `MainApp.show_settings()`. -/
def show_settings (s : AppState) : AppState :=
  runShellCmds show_settings_cmds s

/-- The window-mode `if`/`elif` chain of `MainApp.show_clock`:
`Full Screen` → `showFullScreen()`; otherwise `showNormal()` followed by
`resize(400, 200)` for `Small` or `resize(800, 400)` for `Medium`. -/
def windowModeFromSize (size : String) (s : AppState) : AppState :=
  if size = "Full Screen" then { s with isFullScreen := true }
  else
    let sN := { s with isFullScreen := false }
    if size = "Small" then { sN with winW := 400, winH := 200 }
    else if size = "Medium" then { sN with winW := 800, winH := 400 }
    else sN

/-- Models `MainApp.show_clock(settings)`: switch the stacked widget to the
clock, parse the selected resolution (a `ValueError` — `none` — aborts),
select the window mode from `settings['size']`, force a layout pass
(`processEvents()`, no modelled state), then `start_clock`,
`update_font_size(screen_height, screen_width, settings['size'])` and
focus. -/
def show_clock (settings : SettingsDict) (s : AppState) : Option AppState :=
  let s0 := { s with currentScreen := Screen.clockScreen }
  match parseResolution settings.resolution with
  | none => none
  | some (screen_width, screen_height) =>
    let s1 := windowModeFromSize settings.size s0
    let s2 := start_clock settings s1
    let s3 := update_font_size screen_height screen_width settings.size s2
    some { s3 with clockFocused := true }

/-- Models `SettingsWidget.on_start`: `start_clock_signal.emit(self.settings)`;
the signal is declared `pyqtSignal(dict)`, i.e. `(QVariantMap)`, so the
connected `MainApp.show_clock` receives a converted shallow copy of the
form's dict — modelled by passing the current value of `settingsModel`. -/
def on_start (s : AppState) : Option AppState :=
  show_clock s.settingsModel s

/-- Models `MainApp.__init__` before its final `show_settings()` call: default
form model, empty clock dict, timer stopped, colon flag `True`, settings
widget current (first widget added to the stack). -/
def initWindowState : AppState :=
  { settingsModel := defaultSettings
  , clockSettings := none
  , timerRunning := false
  , colonVisible := true
  , labelText := ""
  , labelFont := none
  , clockBgColor := none
  , clockTextColor := none
  , currentScreen := Screen.settingsScreen
  , isFullScreen := false
  , winW := 0
  , winH := 0
  , clockFocused := false }

/-- Application state after `MainApp.__init__` (which ends with
`show_settings()`). -/
def initialAppState : AppState :=
  show_settings initWindowState

/-- Items of the size dropdown. -/
def sizeItems : List String := ["Small", "Medium", "Full Screen"]

/-- Items of the font dropdown. -/
def fontItems : List String :=
  [ "Monospace", "Liberation Mono", "DejaVu Sans Mono"
  , "Courier New", "FreeMono", "Ubuntu Mono" ]

/-- Items of the resolution dropdown. -/
def resolutionItems : List String :=
  [ "1920x1080", "1680x1050", "1600x900", "1440x900", "1366x768"
  , "1360x768", "1280x1024", "1280x960", "1280x800", "1280x720"
  , "1280x600" ]

/-- One Settings-Screen mutation (a control-change handler invocation). -/
inductive SettingsMut
  | chooseBg (c : String) (valid : Bool)
  | chooseText (c : String) (valid : Bool)
  | pickSize (t : String)
  | pickGmt (v : ℤ)
  | pickFont (f : String)
  | pickRes (r : String)
deriving DecidableEq, Repr

/-- Apply one Settings-Screen mutation. -/
def applyMut (s : AppState) : SettingsMut → AppState
  | SettingsMut.chooseBg c valid => choose_bg_color c valid s
  | SettingsMut.chooseText c valid => choose_text_color c valid s
  | SettingsMut.pickSize t => set_size t s
  | SettingsMut.pickGmt v => set_gmt v s
  | SettingsMut.pickFont f => set_font f s
  | SettingsMut.pickRes r => set_resolution r s

/-- Apply a sequence of Settings-Screen mutations left to right. -/
def applyMuts (muts : List SettingsMut) (s : AppState) : AppState :=
  muts.foldl applyMut s

/-- A mutation the real controls can produce: the spin box is bounded to
[-12, 14] and the dropdowns only offer their fixed item lists. -/
def MutOk : SettingsMut → Prop
  | SettingsMut.chooseBg _ _ => True
  | SettingsMut.chooseText _ _ => True
  | SettingsMut.pickSize t => t ∈ sizeItems
  | SettingsMut.pickGmt v => -12 ≤ v ∧ v ≤ 14
  | SettingsMut.pickFont f => f ∈ fontItems
  | SettingsMut.pickRes r => r ∈ resolutionItems

/-- States reachable by the event-loop: the initial state, timer ticks
(only while the timer is active), the Escape key on the visible clock
(whose handler leaves the widget state unchanged and whose signal is
directly connected to `show_settings`), the Start button on the visible
settings screen, and control changes on the settings form. -/
inductive Reach : AppState → Prop
  | init : Reach initialAppState
  | tick (t : ℤ) {s : AppState} : Reach s → s.timerRunning = true →
      Reach (update_time t s)
  | escapeKey {s : AppState} : Reach s →
      s.currentScreen = Screen.clockScreen →
      Reach (show_settings (keyPressEvent key_Escape s).1)
  | startClick {s s' : AppState} : Reach s →
      s.currentScreen = Screen.settingsScreen →
      on_start s = some s' → Reach s'
  | formChange {s : AppState} (m : SettingsMut) : Reach s → MutOk m →
      Reach (applyMut s m)

/-- The spec's font-size percentage per size mode, as an exact rational:
0.30 for `Small`, 0.50 for `Medium`, 0.55 otherwise (`Full Screen`). -/
def pctOfSpec (size_mode : String) : ℚ :=
  if size_mode = "Small" then 30 / 100
  else if size_mode = "Medium" then 50 / 100
  else 55 / 100

/-- A clock-widget state as produced by `start_clock(defaults)`:
settings received, colon flag still `True`. -/
def demoClockState : AppState :=
  { initWindowState with clockSettings := some defaultSettings }

/-- The spec's worked example settings: `Medium` size with the
`1366x768` resolution preset. -/
def demoMediumSettings : SettingsDict :=
  { defaultSettings with size := "Medium", resolution := "1366x768" }

/-- A state in which the clock screen is the visible widget. -/
def demoClockShown : AppState :=
  { initWindowState with currentScreen := Screen.clockScreen }

/-- The state produced by starting the clock with the spec's worked
example settings (`Medium`, `1366x768`). -/
def demoShown : AppState :=
  (show_clock demoMediumSettings initWindowState).getD initWindowState

/-! ## Helper lemmas -/

/-- The function `update_time` leaves every field except `labelText` and
`colonVisible` unchanged. -/
theorem update_time_frame (now : ℤ) (s : AppState) :
    (update_time now s).settingsModel = s.settingsModel ∧
    (update_time now s).clockSettings = s.clockSettings ∧
    (update_time now s).timerRunning = s.timerRunning ∧
    (update_time now s).labelFont = s.labelFont ∧
    (update_time now s).clockBgColor = s.clockBgColor ∧
    (update_time now s).clockTextColor = s.clockTextColor ∧
    (update_time now s).currentScreen = s.currentScreen ∧
    (update_time now s).isFullScreen = s.isFullScreen ∧
    (update_time now s).winW = s.winW ∧
    (update_time now s).winH = s.winH := by
  cases h : s.clockSettings <;> simp [update_time, h]

/-- The rendered text of `update_time` on a non-empty settings dict. -/
theorem update_time_labelText {s : AppState} {d : SettingsDict}
    (hset : s.clockSettings = some d) (now : ℤ) :
    (update_time now s).labelText =
      pad2 (((now + d.gmt_offset * 60) / 60 % 24).toNat)
        ++ (if s.colonVisible then colonSpan d.text_color
            else colonSpan "transparent")
        ++ pad2 (((now + d.gmt_offset * 60) % 60).toNat) := by
  unfold update_time
  rw [hset]

/-- The function `update_time` toggles the colon flag whenever the dict is non-empty. -/
theorem update_time_colonVisible {s : AppState} {d : SettingsDict}
    (hset : s.clockSettings = some d) (now : ℤ) :
    (update_time now s).colonVisible = !s.colonVisible := by
  unfold update_time
  rw [hset]

/-- Appending strings is associative (at the character-data level). -/
theorem strAppendAssoc (a b c : String) : a ++ b ++ c = a ++ (b ++ c) := by
  apply String.ext
  simp [String.data_append, List.append_assoc]

/-- The colon character occurs in every colon span. -/
theorem colonSpan_mem_colon (c : String) : ':' ∈ (colonSpan c).data := by
  show ':' ∈ ("<span style=\"color:" ++ c ++ ";\">:</span>").data
  rw [String.data_append, String.data_append]
  exact List.mem_append_left _ (List.mem_append_left _ (by decide))

/-- Membership in the middle part of a three-way append. -/
theorem mem_middle_append {x : Char} {a b c : List Char} (h : x ∈ b) :
    x ∈ a ++ b ++ c :=
  List.mem_append_left _ (List.mem_append_right _ h)

/-! ## Claim theorems -/

/-- Claim C1: for every GMT offset in [-12, 14] and every UTC instant,
`update_time` renders hour `(UTC hour + offset) mod 24` and the unchanged
UTC minute, each zero-padded to two digits, with no DST adjustment (the
shift is the fixed `gmt_offset * 60` minutes). -/
theorem C1_offset_hour_rendering (now : ℤ) (s : AppState) (d : SettingsDict)
    (hset : s.clockSettings = some d)
    (hlo : -12 ≤ d.gmt_offset) (hhi : d.gmt_offset ≤ 14) :
    (update_time now s).labelText =
      pad2 ((((now / 60) % 24 + d.gmt_offset) % 24).toNat)
        ++ (if s.colonVisible then colonSpan d.text_color
            else colonSpan "transparent")
        ++ pad2 (((now % 60)).toNat) := by
  rw [update_time_labelText hset]
  have h1 : (now + d.gmt_offset * 60) / 60 % 24
      = ((now / 60) % 24 + d.gmt_offset) % 24 := by omega
  have h2 : (now + d.gmt_offset * 60) % 60 = now % 60 := by omega
  rw [h1, h2]

/-- Witness for C1: the spec's worked example — UTC 14:00 (minute 840 of
the day) with offset -3 renders `11:00` (colon span colored red). -/
theorem C1_offset_hour_rendering_witness :
    (update_time 840 demoClockState).labelText
      = "11<span style=\"color:#ff0000;\">:</span>00" :=
  (C1_offset_hour_rendering 840 demoClockState defaultSettings rfl
      (by decide) (by decide)).trans (by decide)

/-- Claim C3: with a non-empty settings dict, each `update_time` call
negates the colon flag exactly once; starting from a visible colon, the
first tick renders the colon span in the text color and the second
renders it transparent (so over two consecutive ticks each happens
exactly once), and the colon character is present in the rendered string
of both ticks. -/
theorem C3_colon_blink (t1 t2 : ℤ) (s : AppState) (d : SettingsDict)
    (hset : s.clockSettings = some d) (hv : s.colonVisible = true) :
    (∀ (t : ℤ) (s₀ : AppState) (d₀ : SettingsDict),
        s₀.clockSettings = some d₀ →
        (update_time t s₀).colonVisible = !s₀.colonVisible) ∧
    (update_time t1 s).colonVisible = false ∧
    (update_time t2 (update_time t1 s)).colonVisible = true ∧
    (∃ a b : String,
        (update_time t1 s).labelText = a ++ colonSpan d.text_color ++ b) ∧
    (∃ a b : String,
        (update_time t2 (update_time t1 s)).labelText
          = a ++ colonSpan "transparent" ++ b) ∧
    ':' ∈ (update_time t1 s).labelText.data ∧
    ':' ∈ (update_time t2 (update_time t1 s)).labelText.data := by
  have hset1 : (update_time t1 s).clockSettings = some d := by
    rw [(update_time_frame t1 s).2.1, hset]
  have hv1 : (update_time t1 s).colonVisible = false := by
    rw [update_time_colonVisible hset, hv]; rfl
  refine ⟨fun t s₀ d₀ h => update_time_colonVisible h t, hv1, ?_, ?_, ?_, ?_, ?_⟩
  · rw [update_time_colonVisible hset1, hv1]; rfl
  · refine ⟨pad2 (((t1 + d.gmt_offset * 60) / 60 % 24).toNat),
      pad2 (((t1 + d.gmt_offset * 60) % 60).toNat), ?_⟩
    rw [update_time_labelText hset, hv]
    simp
  · refine ⟨pad2 (((t2 + d.gmt_offset * 60) / 60 % 24).toNat),
      pad2 (((t2 + d.gmt_offset * 60) % 60).toNat), ?_⟩
    rw [update_time_labelText hset1, hv1]
    simp
  · rw [update_time_labelText hset, String.data_append, String.data_append]
    refine mem_middle_append ?_
    split <;> exact colonSpan_mem_colon _
  · rw [update_time_labelText hset1, String.data_append, String.data_append]
    refine mem_middle_append ?_
    split <;> exact colonSpan_mem_colon _

/-- Witness for C3: two concrete ticks from the started default state. -/
theorem C3_colon_blink_witness :
    (update_time 840 demoClockState).colonVisible = false ∧
    (update_time 841 (update_time 840 demoClockState)).colonVisible = true ∧
    ':' ∈ (update_time 840 demoClockState).labelText.data :=
  have h := C3_colon_blink 840 841 demoClockState defaultSettings rfl rfl
  ⟨h.2.1, h.2.2.1, h.2.2.2.2.2.1⟩

/-- Natural division by 100 computes the rational floor: the `Small` case. -/
theorem floor30 (h : ℕ) :
    Nat.floor ((h : ℚ) * (30 / 100)) = h * 30 / 100 := by
  have e : (h : ℚ) * (30 / 100) = ((h * 30 : ℕ) : ℚ) / ((100 : ℕ) : ℚ) := by
    push_cast; ring
  rw [e, Nat.floor_div_nat, Nat.floor_natCast]

/-- Natural division by 100 computes the rational floor: the `Medium` case. -/
theorem floor50 (h : ℕ) :
    Nat.floor ((h : ℚ) * (50 / 100)) = h * 50 / 100 := by
  have e : (h : ℚ) * (50 / 100) = ((h * 50 : ℕ) : ℚ) / ((100 : ℕ) : ℚ) := by
    push_cast; ring
  rw [e, Nat.floor_div_nat, Nat.floor_natCast]

/-- Natural division by 100 computes the rational floor: the default case. -/
theorem floor55 (h : ℕ) :
    Nat.floor ((h : ℚ) * (55 / 100)) = h * 55 / 100 := by
  have e : (h : ℚ) * (55 / 100) = ((h * 55 : ℕ) : ℚ) / ((100 : ℕ) : ℚ) := by
    push_cast; ring
  rw [e, Nat.floor_div_nat, Nat.floor_natCast]

/-- The font set by `update_font_size`: family from the stored settings
(default `Monospace`), pixel size the rational floor of height times the
mode's percentage. -/
theorem update_font_size_labelFont (s : AppState) (h w : ℕ) (m : String) :
    (update_font_size h w m s).labelFont
      = some ((match s.clockSettings with
               | some d => d.font_family
               | none => "Monospace"),
              Nat.floor ((h : ℚ) * pctOfSpec m)) := by
  unfold update_font_size pctOfSpec
  by_cases h1 : m = "Small" <;> by_cases h2 : m = "Medium" <;>
    simp [h1, h2, floor30, floor50, floor55]

/-- The value of `show_clock` on a parseable resolution, written out as its pipeline. -/
theorem show_clock_eq {settings : SettingsDict} (s : AppState) {wv hv : ℕ}
    (hres : parseResolution settings.resolution = some (wv, hv)) :
    show_clock settings s =
      some { update_font_size hv wv settings.size
               (start_clock settings
                 (windowModeFromSize settings.size
                   { s with currentScreen := Screen.clockScreen }))
             with clockFocused := true } := by
  unfold show_clock
  rw [hres]

/-- Claim C2: the font pixel size computed by `update_font_size` is
`floor(height * p)` with `p` = 0.30 for `Small`, 0.50 for `Medium` and
0.55 otherwise; the result does not depend on the width argument; and
`show_clock` feeds it the height parsed from the user-selected resolution
preset (not measured window geometry). -/
theorem C2_font_size (s : AppState) (target_height target_width : ℕ)
    (size_mode : String) :
    ((update_font_size target_height target_width size_mode s).labelFont.map
        Prod.snd
      = some (Nat.floor ((target_height : ℚ) * pctOfSpec size_mode))) ∧
    (update_font_size target_height target_width size_mode s
      = update_font_size target_height 0 size_mode s) ∧
    (∀ (d : SettingsDict) (w h : ℕ) (s' : AppState),
      parseResolution d.resolution = some (w, h) →
      show_clock d s = some s' →
      s'.labelFont
        = some (d.font_family, Nat.floor ((h : ℚ) * pctOfSpec d.size))) := by
  refine ⟨by rw [update_font_size_labelFont]; rfl, rfl, ?_⟩
  intro d w h s' hres hsc
  rw [show_clock_eq s hres] at hsc
  cases hsc
  rw [update_font_size_labelFont]
  rfl

/-- Witness for C2: the spec's worked example — height 768 from the
`1366x768` preset in `Medium` mode gives pixel size
`floor(768 * 0.50) = 384`, via `show_clock` and directly. -/
theorem C2_font_size_witness :
    ((update_font_size 768 1366 "Medium" initWindowState).labelFont.map
        Prod.snd = some 384) ∧
    demoShown.labelFont = some ("Monospace", 384) :=
  have h := C2_font_size initWindowState 768 1366 "Medium"
  have h3 := (C2_font_size initWindowState 768 1366 "Medium").2.2
      demoMediumSettings 1366 768 demoShown (by decide) (by decide)
  ⟨h.1.trans (by
      rw [show pctOfSpec "Medium" = 50 / 100 from by simp [pctOfSpec]]
      rw [floor50]),
   h3.trans (by
      rw [show demoMediumSettings.font_family = "Monospace" from rfl,
        show demoMediumSettings.size = "Medium" from rfl,
        show pctOfSpec "Medium" = 50 / 100 from by simp [pctOfSpec],
        floor50])⟩

/-- Settings-Screen control handlers only touch `settingsModel`: every
clock-widget and shell field is unchanged. -/
theorem applyMut_frame (s : AppState) (m : SettingsMut) :
    (applyMut s m).clockSettings = s.clockSettings ∧
    (applyMut s m).timerRunning = s.timerRunning ∧
    (applyMut s m).colonVisible = s.colonVisible ∧
    (applyMut s m).labelText = s.labelText ∧
    (applyMut s m).labelFont = s.labelFont ∧
    (applyMut s m).clockBgColor = s.clockBgColor ∧
    (applyMut s m).clockTextColor = s.clockTextColor ∧
    (applyMut s m).currentScreen = s.currentScreen ∧
    (applyMut s m).isFullScreen = s.isFullScreen ∧
    (applyMut s m).winW = s.winW ∧
    (applyMut s m).winH = s.winH := by
  cases m <;>
    simp [applyMut, choose_bg_color, choose_text_color, set_size, set_gmt,
      set_font, set_resolution] <;>
    split <;> simp

/-- Sequences of Settings-Screen mutations leave the clock fields
unchanged. -/
theorem applyMuts_frame (muts : List SettingsMut) (s : AppState) :
    (applyMuts muts s).clockSettings = s.clockSettings ∧
    (applyMuts muts s).colonVisible = s.colonVisible ∧
    (applyMuts muts s).labelText = s.labelText ∧
    (applyMuts muts s).labelFont = s.labelFont ∧
    (applyMuts muts s).clockBgColor = s.clockBgColor ∧
    (applyMuts muts s).clockTextColor = s.clockTextColor := by
  induction muts generalizing s with
  | nil => exact ⟨rfl, rfl, rfl, rfl, rfl, rfl⟩
  | cons m rest ih =>
    have hm := applyMut_frame s m
    have hr := ih (applyMut s m)
    simp only [applyMuts, List.foldl_cons] at hr ⊢
    exact ⟨hr.1.trans hm.1, hr.2.1.trans hm.2.2.1, hr.2.2.1.trans hm.2.2.2.1,
      hr.2.2.2.1.trans hm.2.2.2.2.1, hr.2.2.2.2.1.trans hm.2.2.2.2.2.1,
      hr.2.2.2.2.2.trans hm.2.2.2.2.2.2.1⟩

/-- Claim C4: the settings the Clock Screen got at start are a by-value
snapshot — the `pyqtSignal(dict)` emission delivers a converted copy — so
any sequence of Settings-Screen mutations after `on_start` leaves the
already-started clock's stored settings, applied palette colors, font,
and the text rendered by subsequent `update_time` ticks unchanged. -/
theorem C4_snapshot (s : AppState) (muts : List SettingsMut) (t : ℤ) :
    (applyMuts muts s).clockSettings = s.clockSettings ∧
    (applyMuts muts s).clockBgColor = s.clockBgColor ∧
    (applyMuts muts s).clockTextColor = s.clockTextColor ∧
    (applyMuts muts s).labelFont = s.labelFont ∧
    (update_time t (applyMuts muts s)).labelText
      = (update_time t s).labelText ∧
    (update_time t (applyMuts muts s)).colonVisible
      = (update_time t s).colonVisible := by
  have hf := applyMuts_frame muts s
  refine ⟨hf.1, hf.2.2.2.2.1, hf.2.2.2.2.2, hf.2.2.2.1, ?_, ?_⟩ <;>
    · unfold update_time
      rw [hf.1]
      cases s.clockSettings <;> simp [hf.2.1, hf.2.2.1]

/-- Claim C6: no Clock-Screen operation mutates the settings mapping —
`start_clock` stores exactly the record it received, and every operation
leaves both the stored settings and the form's model unchanged. -/
theorem C6_clock_reads_only (settings : SettingsDict) (s : AppState)
    (t : ℤ) (h w : ℕ) (m : String) (k : ℕ) :
    (start_clock settings s).clockSettings = some settings ∧
    (start_clock settings s).settingsModel = s.settingsModel ∧
    (update_time t s).clockSettings = s.clockSettings ∧
    (update_time t s).settingsModel = s.settingsModel ∧
    (update_font_size h w m s).clockSettings = s.clockSettings ∧
    (update_font_size h w m s).settingsModel = s.settingsModel ∧
    (stop_clock s).clockSettings = s.clockSettings ∧
    (stop_clock s).settingsModel = s.settingsModel ∧
    (keyPressEvent k s).1.clockSettings = s.clockSettings ∧
    (keyPressEvent k s).1.settingsModel = s.settingsModel := by
  have hu := update_time_frame t s
  refine ⟨rfl, rfl, hu.2.1, hu.1, rfl, rfl, rfl, rfl, ?_, ?_⟩ <;>
    · unfold keyPressEvent
      split <;> rfl

/-- Claim C7: on the Escape key the clock's key handler emits the
return-to-settings signal and changes nothing: the resulting widget state
(timer included) is exactly the input state. -/
theorem C7_escape_emits_only (s : AppState) :
    keyPressEvent key_Escape s = (s, [ClockSignal.returnToSettings]) ∧
    (keyPressEvent key_Escape s).1.timerRunning = s.timerRunning := by
  constructor <;> simp [keyPressEvent]

/-- Claim C8: `stop_clock` is idempotent — a second call changes nothing,
and on an already-stopped timer it is a no-op. -/
theorem C8_stop_idempotent (s : AppState) :
    stop_clock (stop_clock s) = stop_clock s ∧
    (s.timerRunning = false → stop_clock s = s) := by
  constructor
  · rfl
  · intro h
    cases s
    simp_all [stop_clock]

/-- Witness for C8: stopping the already-stopped initial clock is a
no-op. -/
theorem C8_stop_idempotent_witness :
    stop_clock initWindowState = initWindowState :=
  (C8_stop_idempotent initWindowState).2 rfl

/-- The window-mode selection touches only the window fields. -/
theorem windowModeFromSize_frame (size : String) (s : AppState) :
    (windowModeFromSize size s).settingsModel = s.settingsModel ∧
    (windowModeFromSize size s).clockSettings = s.clockSettings ∧
    (windowModeFromSize size s).timerRunning = s.timerRunning ∧
    (windowModeFromSize size s).currentScreen = s.currentScreen := by
  unfold windowModeFromSize
  by_cases h1 : size = "Full Screen" <;> by_cases h2 : size = "Small" <;>
    by_cases h3 : size = "Medium" <;> simp [h1, h2, h3]

/-- Fields of the state `show_clock` produces. -/
theorem show_clock_fields {settings : SettingsDict} {s s' : AppState}
    (h : show_clock settings s = some s') :
    s'.currentScreen = Screen.clockScreen ∧
    s'.settingsModel = s.settingsModel ∧
    s'.clockSettings = some settings ∧
    s'.timerRunning = true := by
  cases hres : parseResolution settings.resolution with
  | none => unfold show_clock at h; rw [hres] at h; cases h
  | some p =>
    obtain ⟨wv, hv⟩ := p
    rw [show_clock_eq s hres] at h
    cases h
    have hw := windowModeFromSize_frame settings.size
      { s with currentScreen := Screen.clockScreen }
    refine ⟨?_, ?_, ?_, ?_⟩ <;>
      simp [update_font_size, start_clock, hw.1, hw.2.2.2]

/-- Field values after `show_settings`: timer stopped, settings screen
current, windowed mode at 400x500, form model and stored clock settings
untouched. -/
theorem show_settings_fields (s : AppState) :
    (show_settings s).timerRunning = false ∧
    (show_settings s).currentScreen = Screen.settingsScreen ∧
    (show_settings s).isFullScreen = false ∧
    (show_settings s).winW = 400 ∧
    (show_settings s).winH = 500 ∧
    (show_settings s).settingsModel = s.settingsModel ∧
    (show_settings s).clockSettings = s.clockSettings := by
  simp [show_settings, runShellCmds, show_settings_cmds, runShellCmd,
    stop_clock]

/-- Reachability invariant: whenever the Settings Screen is the visible
widget, the clock's timer is stopped — so no tick can fire there. -/
theorem reach_settings_timer {s : AppState} (h : Reach s) :
    s.currentScreen = Screen.settingsScreen → s.timerRunning = false := by
  induction h with
  | init => intro _; decide
  | tick t hr hrun ih =>
    rename_i s₀
    intro hcur
    have hf := update_time_frame t s₀
    rw [hf.2.2.2.2.2.2.1] at hcur
    rw [hf.2.2.1, hrun]
    exact absurd (ih hcur) (by simp [hrun])
  | escapeKey hr hcur ih =>
    intro _
    exact (show_settings_fields _).1
  | startClick hr hcur hstart ih =>
    intro hcur'
    rw [(show_clock_fields hstart).1] at hcur'
    cases hcur'
  | formChange m hr hok ih =>
    rename_i s₀
    intro hcur
    have hf := applyMut_frame s₀ m
    rw [hf.2.2.2.2.2.2.2.1] at hcur
    rw [hf.2.1]
    exact ih hcur

/-- Claim C5: `show_settings` stops the clock's timer strictly before the
Settings Screen becomes the visible widget (at every intermediate point
of its statement sequence, if settings is current then the timer is
already stopped), ends in windowed mode at the fixed 400x500 size with
the settings screen current, and consequently — via the reachability
invariant — no tick fires while the Settings Screen is visible. -/
theorem C5_return_stops_timer (s : AppState)
    (hclock : s.currentScreen = Screen.clockScreen) :
    (∀ n : ℕ,
      (runShellCmds (show_settings_cmds.take n) s).currentScreen
          = Screen.settingsScreen →
      (runShellCmds (show_settings_cmds.take n) s).timerRunning = false) ∧
    (show_settings s).timerRunning = false ∧
    (show_settings s).currentScreen = Screen.settingsScreen ∧
    (show_settings s).isFullScreen = false ∧
    (show_settings s).winW = 400 ∧
    (show_settings s).winH = 500 ∧
    (∀ s', Reach s' → s'.currentScreen = Screen.settingsScreen →
        s'.timerRunning = false) := by
  have hss := show_settings_fields s
  refine ⟨?_, hss.1, hss.2.1, hss.2.2.1, hss.2.2.2.1, hss.2.2.2.2.1,
    fun s' hr => reach_settings_timer hr⟩
  intro n hcur
  rcases n with _ | _ | _ | _ | n <;>
    simp_all [runShellCmds, show_settings_cmds, List.take, runShellCmd,
      stop_clock, hclock]

/-- Witness for C5: returning from a visible clock screen stops the
timer and restores the 400x500 settings window; the initial state is
reachable with the settings screen visible and a stopped timer. -/
theorem C5_return_stops_timer_witness :
    (show_settings demoClockShown).timerRunning = false ∧
    (show_settings demoClockShown).currentScreen = Screen.settingsScreen ∧
    (show_settings demoClockShown).winW = 400 ∧
    (show_settings demoClockShown).winH = 500 ∧
    initialAppState.timerRunning = false :=
  have h := C5_return_stops_timer demoClockShown rfl
  ⟨h.2.1, h.2.2.1, h.2.2.2.2.1, h.2.2.2.2.2.1,
   h.2.2.2.2.2.2 initialAppState Reach.init (by decide)⟩

/-- The window fields produced by each size mode. -/
theorem windowModeFromSize_cases (s : AppState) :
    (windowModeFromSize "Full Screen" s).isFullScreen = true ∧
    windowModeFromSize "Small" s
      = { s with isFullScreen := false, winW := 400, winH := 200 } ∧
    windowModeFromSize "Medium" s
      = { s with isFullScreen := false, winW := 800, winH := 400 } := by
  refine ⟨?_, ?_, ?_⟩ <;> simp [windowModeFromSize]

/-- The window fields of the `show_clock` result are those chosen by
`windowModeFromSize` (the later pipeline stages do not touch them). -/
theorem show_clock_window {settings : SettingsDict} {s s' : AppState}
    {wv hv : ℕ} (hres : parseResolution settings.resolution = some (wv, hv))
    (h : show_clock settings s = some s') :
    s'.isFullScreen = (windowModeFromSize settings.size
        { s with currentScreen := Screen.clockScreen }).isFullScreen ∧
    s'.winW = (windowModeFromSize settings.size
        { s with currentScreen := Screen.clockScreen }).winW ∧
    s'.winH = (windowModeFromSize settings.size
        { s with currentScreen := Screen.clockScreen }).winH := by
  rw [show_clock_eq s hres] at h
  cases h
  exact ⟨rfl, rfl, rfl⟩

/-- Claim C9: `show_clock` selects the window mode solely from the size
mode — `Full Screen` enters true fullscreen, `Small` a fixed 400x200
window, `Medium` a fixed 800x400 window — and, for a fixed prior state,
the resulting window fields are independent of which (parseable)
resolution preset is selected. -/
theorem C9_window_mode (d : SettingsDict) (s : AppState) (wv hv : ℕ)
    (hres : parseResolution d.resolution = some (wv, hv)) :
    (∀ s', show_clock d s = some s' →
      (d.size = "Full Screen" → s'.isFullScreen = true) ∧
      (d.size = "Small" →
        s'.isFullScreen = false ∧ s'.winW = 400 ∧ s'.winH = 200) ∧
      (d.size = "Medium" →
        s'.isFullScreen = false ∧ s'.winW = 800 ∧ s'.winH = 400)) ∧
    (show_clock d s).isSome = true ∧
    (∀ (d' : SettingsDict) (wv' hv' : ℕ) (s₁ s₂ : AppState),
      parseResolution d'.resolution = some (wv', hv') → d'.size = d.size →
      show_clock d s = some s₁ → show_clock d' s = some s₂ →
      s₁.isFullScreen = s₂.isFullScreen ∧ s₁.winW = s₂.winW ∧
        s₁.winH = s₂.winH) := by
  refine ⟨?_, ?_, ?_⟩
  · intro s' h
    have hw := show_clock_window hres h
    have hc := windowModeFromSize_cases
      { s with currentScreen := Screen.clockScreen }
    refine ⟨fun hsize => ?_, fun hsize => ?_, fun hsize => ?_⟩
    · rw [hw.1, hsize, hc.1]
    · rw [hw.1, hw.2.1, hw.2.2, hsize, hc.2.1]
      exact ⟨rfl, rfl, rfl⟩
    · rw [hw.1, hw.2.1, hw.2.2, hsize, hc.2.2]
      exact ⟨rfl, rfl, rfl⟩
  · rw [show_clock_eq s hres]
    rfl
  · intro d' wv' hv' s₁ s₂ hres' hsize h1 h2
    have hw1 := show_clock_window hres h1
    have hw2 := show_clock_window hres' h2
    rw [hsize] at hw2
    exact ⟨hw1.1.trans hw2.1.symm, hw1.2.1.trans hw2.2.1.symm,
      hw1.2.2.trans hw2.2.2.symm⟩

/-- Witness for C9: the spec's worked example — `Medium` with the
`1366x768` preset still yields a windowed 800x400 main window. -/
theorem C9_window_mode_witness :
    demoShown.isFullScreen = false ∧ demoShown.winW = 800 ∧
      demoShown.winH = 400 :=
  have h := C9_window_mode demoMediumSettings initWindowState 1366 768
    (by decide)
  (h.1 demoShown (by decide)).2.2 rfl

/-- The call `show_clock` succeeds exactly when the resolution string parses. -/
theorem show_clock_isSome (d : SettingsDict) (s : AppState) :
    (show_clock d s).isSome = (parseResolution d.resolution).isSome := by
  cases hres : parseResolution d.resolution with
  | none => unfold show_clock; rw [hres]; rfl
  | some p =>
    obtain ⟨wv, hv⟩ := p
    rw [show_clock_eq s hres]
    rfl

/-- Every entry of the resolution dropdown parses. -/
theorem resolutionItems_parse {r : String} (hr : r ∈ resolutionItems) :
    (parseResolution r).isSome = true := by
  fin_cases hr <;> decide

/-- Reachability invariant: the form model's resolution is always one of
the dropdown's items. -/
theorem reach_resolution_mem {s : AppState} (h : Reach s) :
    s.settingsModel.resolution ∈ resolutionItems := by
  induction h with
  | init => decide
  | tick t hr hrun ih =>
    rename_i s₀
    rw [(update_time_frame t s₀).1]
    exact ih
  | escapeKey hr hcur ih =>
    rename_i s₀
    have : (keyPressEvent key_Escape s₀).1 = s₀ := by simp [keyPressEvent]
    rw [(show_settings_fields _).2.2.2.2.2.1, this]
    exact ih
  | startClick hr hcur hstart ih =>
    rw [(show_clock_fields hstart).2.1]
    exact ih
  | formChange m hr hok ih =>
    rename_i s₀
    cases m with
    | chooseBg c valid =>
      simp only [applyMut, choose_bg_color]
      split <;> simpa using ih
    | chooseText c valid =>
      simp only [applyMut, choose_text_color]
      split <;> simpa using ih
    | pickSize t => simpa [applyMut, set_size] using ih
    | pickGmt v => simpa [applyMut, set_gmt] using ih
    | pickFont f => simpa [applyMut, set_font] using ih
    | pickRes r => simpa [applyMut, set_resolution, MutOk] using hok

/-- Claim C10: `show_clock` raises a parse fault exactly when the
resolution string does not parse as `WIDTHxHEIGHT` with integer parts;
every value of the fixed resolution dropdown parses (so along every
reachable state, starting the clock never faults), while a malformed
free-text value yields a parse fault. -/
theorem C10_resolution_parsing (r : String) (s : AppState)
    (d : SettingsDict) :
    (r ∈ resolutionItems → (parseResolution r).isSome = true) ∧
    ((show_clock d s).isSome = (parseResolution d.resolution).isSome) ∧
    (∀ s', Reach s' → (on_start s').isSome = true) ∧
    parseResolution "fullhd" = none ∧
    parseResolution "1920x1080x60" = none := by
  refine ⟨fun hr => resolutionItems_parse hr, show_clock_isSome d s,
    ?_, by decide, by decide⟩
  intro s' hr
  unfold on_start
  rw [show_clock_isSome]
  exact resolutionItems_parse (reach_resolution_mem hr)

/-- Witness for C10: the default preset parses, starting from the
reachable initial state succeeds, and free text faults. -/
theorem C10_resolution_parsing_witness :
    (parseResolution "1920x1080").isSome = true ∧
    (on_start initialAppState).isSome = true ∧
    parseResolution "fullhd" = none :=
  have h := C10_resolution_parsing "1920x1080" initWindowState
    defaultSettings
  ⟨h.1 (by decide), h.2.2.1 initialAppState Reach.init, h.2.2.2.1⟩
